import Mathlib

/-!
Verification of the midnight2 runtime core against its specification.

The development shallowly embeds the repository's Rust sources:

* `src/core/src/identifier.rs` — the `GlobalId` / `ThreadLocalId` allocators.
  Each allocator is an atomic `usize` counter bumped by
  `fetch_update(.., |val| val.checked_add(1))`.  We model the counter as a
  `Nat` together with the `usize` overflow bound, and an allocation as a pure
  state transformer `Nat → Option Nat × Nat` (returned id, new counter).
* `src/core/src/render.rs` — the frame pipeline (`RenderFrame`,
  `GameRenderer`, `render_loop`, `GameRenderer.init`, `GameRenderer.exit`)
  and the presentation-loop thread spawned by `init`.  GPU-side objects
  (encoders, fences, views, command buffers) are opaque handles; the calls
  into the graphics collaborator are recorded in an explicit event trace so
  that ordering properties can be stated.  Blocking calls
  (`Device::wait`, texture acquisition) are trace events whose black-box
  semantics (wait until the fence reaches the given value, hand back an
  image) belong to the collaborator, not to this core.
-/

namespace Midnight2

/-! ## Identifier allocators (src/core/src/identifier.rs) -/

/-- The largest value of a Rust `usize` on the 64-bit targets this crate
builds for; `checked_add` returns `None` beyond it. -/
def USIZE_MAX : Nat := 2 ^ 64 - 1

/-- Rust `usize::checked_add`: `some (a + b)` unless the sum leaves the
`usize` range. -/
def checkedAdd (a b : Nat) : Option Nat :=
  if a + b ≤ USIZE_MAX then some (a + b) else none

namespace GlobalId

/-- `GlobalId::allocate` seen as a transformer of the `ALLOCATED_GLOBAL_ID`
counter: `fetch_update` applies `checked_add 1`; on success it stores the
incremented value and returns the previous one (wrapped `GlobalId`), on
overflow it leaves the counter unchanged and `.ok()` yields `None`. -/
def allocate (c : Nat) : Option Nat × Nat :=
  match checkedAdd c 1 with
  | some next => (some c, next)
  | none => (none, c)

/-- The ids handed out by `n` consecutive `GlobalId::allocate` calls starting
from counter value `c`, in call order. -/
def allocRun (c : Nat) : Nat → List (Option Nat)
  | 0 => []
  | n + 1 => (allocate c).1 :: allocRun (allocate c).2 n

end GlobalId

namespace ThreadLocalId

/-- `ThreadLocalId::allocate` as a transformer of the calling thread's
`ALLOCATED_THREAD_ID` counter; the body is the same `fetch_update` with
`checked_add 1` as the global allocator, on a thread-private counter. -/
def allocate (c : Nat) : Option Nat × Nat :=
  match checkedAdd c 1 with
  | some next => (some c, next)
  | none => (none, c)

/-- The ids handed out by `n` consecutive `ThreadLocalId::allocate` calls on
one thread, starting from that thread's counter value `c`. -/
def allocRun (c : Nat) : Nat → List (Option Nat)
  | 0 => []
  | n + 1 => (allocate c).1 :: allocRun (allocate c).2 n

end ThreadLocalId

/-! ## Frame pipeline (src/core/src/render.rs) -/

/-- GPU-side objects (texture views, command buffers) are opaque to this
core; we identify them by numeric handles. -/
abbrev Handle := Nat

/-- `MAX_FRAMES_IN_FLIGHT` from render.rs. -/
def MAX_FRAMES_IN_FLIGHT : Nat := 3

/-- One call into the graphics collaborator, in the order the pipeline
issues them.  `fenceWait v` is `Device::wait(fence, v, !0)`: it blocks the
calling thread until the fence's observed value reaches `v`.  `submit`
carries the slot index whose fence is paired with the batch, the command
buffers of the batch, and the fence value the fence will report once the
submission retires. -/
inductive Event where
  | acquireTexture
  | beginEncoding (slot : Nat)
  | transitionTextures
  | createTextureView (view : Handle)
  | beginRenderPass
  | endRenderPass
  | endEncoding (buf : Handle)
  | submit (slot : Nat) (bufs : List Handle) (fenceValue : Nat)
  | present
  | fenceWait (value : Nat)
  | resetCmdBufs (bufs : List Handle)
  | destroyTextureView (view : Handle)
  | destroyCommandEncoder
  | destroyFence
  | unconfigureSurface
  | deviceExit
  | destroySurface
  | releaseAdapter
deriving Repr, DecidableEq

/-- `RenderFrame` from render.rs: one ring slot.  The encoder and fence are
opaque; `fence_value`, the retirement lists and the diagnostic counter are
the slot's observable state. -/
structure RenderFrame where
  fence_value : Nat
  used_views : List Handle
  used_cmd_bufs : List Handle
  frames_recorded : Nat
deriving Repr, DecidableEq

/-- `RenderFrame::wait_and_clear`: `device.wait(&fence, fence_value, !0)`,
then `encoder.reset_all(used_cmd_bufs.drain(..))`, then
`destroy_texture_view` on each drained view, then `frames_recorded = 0`.
Returns the slot afterwards together with the calls issued, in order. -/
def RenderFrame.wait_and_clear (f : RenderFrame) : RenderFrame × List Event :=
  (⟨f.fence_value, [], [], 0⟩,
    Event.fenceWait f.fence_value ::
    Event.resetCmdBufs f.used_cmd_bufs ::
    f.used_views.map Event.destroyTextureView)

/-- `RenderFrame::destroy`: unconditionally release the slot's command
encoder, then its fence. -/
def RenderFrame.destroy (_f : RenderFrame) : List Event :=
  [Event.destroyCommandEncoder, Event.destroyFence]

/-- `GameRenderer` from render.rs, restricted to the state the claims are
about: the fixed ring `frames_in_flight` (an array of three `Option`
slots in the source; here a list that well-formed states keep at length
`MAX_FRAMES_IN_FLIGHT`) and the cursor `frame_index`.  The instance,
adapter, surface, device and queue are opaque capabilities whose use is
recorded in the event trace. -/
structure GameRenderer where
  frames_in_flight : List (Option RenderFrame)
  frame_index : Nat
deriving Repr, DecidableEq

/-- `render_loop(game_renderer)`: look up the current slot (the source's
indexing plus `as_mut().unwrap()`; `none` models the panic), acquire a
surface texture (`acquireOk = false` models a failed
`acquire_texture(None).unwrap().unwrap()`), record the frame, submit the
command buffer paired with `(frame.fence, frame.fence_value)`, present, and
push the command buffer and the transient view onto the slot's retirement
lists.  `view` and `buf` are the fresh handles the device returns for the
transient texture view and the finished command buffer.  The source updates
neither `frame_index`, nor `fence_value`, nor `frames_recorded`. -/
def render_loop (g : GameRenderer) (acquireOk : Bool) (view buf : Handle) :
    Option (GameRenderer × List Event) :=
  match g.frames_in_flight.get? g.frame_index with
  | none => none
  | some none => none
  | some (some frame) =>
    if acquireOk then
      some
        ({ g with
            frames_in_flight :=
              g.frames_in_flight.set g.frame_index
                (some { frame with
                          used_cmd_bufs := frame.used_cmd_bufs ++ [buf],
                          used_views := frame.used_views ++ [view] }) },
         [Event.acquireTexture,
          Event.beginEncoding g.frame_index,
          Event.transitionTextures,
          Event.createTextureView view,
          Event.beginRenderPass,
          Event.endRenderPass,
          Event.transitionTextures,
          Event.endEncoding buf,
          Event.submit g.frame_index [buf] frame.fence_value,
          Event.present])
    else none

/-- A slot as `GameRenderer::init` creates it: fresh fence at value 0, empty
retirement lists, zero recorded frames. -/
def initFrame : RenderFrame := ⟨0, [], [], 0⟩

/-- The pipeline state `GameRenderer::init` returns on success: all
`MAX_FRAMES_IN_FLIGHT` slots freshly created, `frame_index = 0`. -/
def initRenderer : GameRenderer :=
  ⟨List.replicate MAX_FRAMES_IN_FLIGHT (some initFrame), 0⟩

/-- `GameRenderer::exit`: submit an empty batch paired with the current
slot's fence and `fence_value`, `wait_and_clear` that slot, then for every
`i` in `0..MAX_FRAMES_IN_FLIGHT` take the slot and `destroy` it (the
`take().unwrap()` panics — modelled as `none` — unless every slot is
present), then unconfigure the surface, release the device together with
the queue, destroy the surface via the instance, and drop the adapter. -/
def GameRenderer.exit (g : GameRenderer) : Option (List Event) :=
  match g.frames_in_flight.get? g.frame_index with
  | none => none
  | some none => none
  | some (some frame) =>
    let (cleared, clearEvents) := frame.wait_and_clear
    let ring := g.frames_in_flight.set g.frame_index (some cleared)
    if (List.range MAX_FRAMES_IN_FLIGHT).all
        (fun i => (ring.get? i).elim false Option.isSome) then
      some
        (Event.submit g.frame_index [] frame.fence_value ::
          clearEvents
          ++ (List.range MAX_FRAMES_IN_FLIGHT).foldr
              (fun i acc => ((ring.get? i).elim none id).elim [] RenderFrame.destroy ++ acc) []
          ++ [Event.unconfigureSurface, Event.deviceExit,
              Event.destroySurface, Event.releaseAdapter])
    else none

/-- `n` consecutive successful `render_loop` calls starting from the state
`GameRenderer::init` returns, with call `k` receiving fresh handles `k` for
its view and command buffer; yields the final state and the concatenated
event trace. -/
def renderN : Nat → Option (GameRenderer × List Event)
  | 0 => some (initRenderer, [])
  | n + 1 =>
    match renderN n with
    | none => none
    | some (g, tr) =>
      match render_loop g true n n with
      | none => none
      | some (g2, ev) => some (g2, tr ++ ev)

/-! ## Pipeline initialization (GameRenderer::init) -/

/-- Calls `GameRenderer::init` makes into the collaborators, in order. -/
inductive InitEvent where
  | instanceInit
  | createSurface
  | enumerateAdapters (count : Nat)
  | surfaceCapabilities
  | openDevice
  | configureSurface
  | createCommandEncoder
  | createFence
deriving Repr, DecidableEq

/-- How `GameRenderer::init` can abort.  `instanceInitFailed` is the
propagated `?` on `Instance::init`; `noAdaptersFound` and
`noSurfaceCapabilities` are the two explicit `Err` returns; the remaining
constructors model the `unwrap` panics on surface creation, device open and
surface configuration. -/
inductive InitError where
  | instanceInitFailed
  | surfaceCreateFailed
  | noAdaptersFound
  | noSurfaceCapabilities
  | deviceOpenFailed
  | surfaceConfigureFailed
deriving Repr, DecidableEq

/-- The collaborator responses `GameRenderer::init` depends on: whether each
fallible call succeeds, and how many adapters `enumerate_adapters`
returns. -/
structure InitEnv where
  instanceOk : Bool
  surfaceOk : Bool
  adapterCount : Nat
  surfaceCapsOk : Bool
  openOk : Bool
  configureOk : Bool
deriving Repr, DecidableEq

/-- `GameRenderer::init`: create the instance, create the surface, enumerate
adapters (returning `Err` when none are found), query surface capabilities
(`Err` when unavailable), open the device and queue, configure the surface
with `swap_chain_size` clamped into the reported range, then eagerly create
all `MAX_FRAMES_IN_FLIGHT` slots (encoder plus fence at value 0 each).
Returns the calls issued so far together with the outcome. -/
def GameRenderer.init (env : InitEnv) :
    List InitEvent × Except InitError GameRenderer :=
  if !env.instanceOk then ([], Except.error InitError.instanceInitFailed)
  else if !env.surfaceOk then
    ([InitEvent.instanceInit], Except.error InitError.surfaceCreateFailed)
  else if env.adapterCount = 0 then
    ([InitEvent.instanceInit, InitEvent.createSurface,
      InitEvent.enumerateAdapters env.adapterCount],
     Except.error InitError.noAdaptersFound)
  else if !env.surfaceCapsOk then
    ([InitEvent.instanceInit, InitEvent.createSurface,
      InitEvent.enumerateAdapters env.adapterCount,
      InitEvent.surfaceCapabilities],
     Except.error InitError.noSurfaceCapabilities)
  else if !env.openOk then
    ([InitEvent.instanceInit, InitEvent.createSurface,
      InitEvent.enumerateAdapters env.adapterCount,
      InitEvent.surfaceCapabilities, InitEvent.openDevice],
     Except.error InitError.deviceOpenFailed)
  else if !env.configureOk then
    ([InitEvent.instanceInit, InitEvent.createSurface,
      InitEvent.enumerateAdapters env.adapterCount,
      InitEvent.surfaceCapabilities, InitEvent.openDevice,
      InitEvent.configureSurface],
     Except.error InitError.surfaceConfigureFailed)
  else
    ([InitEvent.instanceInit, InitEvent.createSurface,
      InitEvent.enumerateAdapters env.adapterCount,
      InitEvent.surfaceCapabilities, InitEvent.openDevice,
      InitEvent.configureSurface]
      ++ (List.replicate MAX_FRAMES_IN_FLIGHT
            [InitEvent.createCommandEncoder, InitEvent.createFence]).flatten,
     Except.ok initRenderer)

/-! ## The presentation-loop thread (render.rs `init`) -/

/-- What one iteration of the spawned presentation loop does. -/
inductive LoopAction where
  | renderFrame
  | shutdownExit
deriving Repr, DecidableEq

/-- Whether the current slot of `g` is present, i.e. whether
`frames_in_flight[frame_index].as_mut().unwrap()` would succeed. -/
def GameRenderer.slotReady (g : GameRenderer) : Bool :=
  match g.frames_in_flight.get? g.frame_index with
  | some (some _) => true
  | _ => false

/-- The loop body spawned by render.rs `init`, run for at most `fuel`
iterations starting at iteration number `i`: at the top of each iteration
read the cooperative shutdown flag (`flags` gives the value each read
observes); if set, call `GameRenderer::exit` and break, otherwise run
`render_loop` to completion (iteration `i` uses fresh handles `i`) and
continue.  A `render_loop` panic ends the thread.  Returns the per-iteration
actions in order. -/
def presentationLoop (flags : Nat → Bool) :
    Nat → GameRenderer → Nat → List LoopAction
  | _, _, 0 => []
  | i, g, fuel + 1 =>
    if flags i then [LoopAction.shutdownExit]
    else
      match render_loop g true i i with
      | none => [LoopAction.renderFrame]
      | some (g2, _) =>
        LoopAction.renderFrame :: presentationLoop flags (i + 1) g2 fuel

/-! ## Trace observables -/

/-- The slots on which recording began, in order, read off a trace. -/
def usedSlots (tr : List Event) : List Nat :=
  tr.filterMap (fun e =>
    match e with
    | Event.beginEncoding s => some s
    | _ => none)

/-- How many fence waits (slot reclamations begin with one) a trace holds. -/
def fenceWaitCount (tr : List Event) : Nat :=
  (tr.filter (fun e =>
    match e with
    | Event.fenceWait _ => true
    | _ => false)).length

/-- The queue submissions in a trace as (slot, fence value) pairs: which
slot's fence each batch was paired with, and the value it will signal. -/
def submitPairs (tr : List Event) : List (Nat × Nat) :=
  tr.filterMap (fun e =>
    match e with
    | Event.submit s _ v => some (s, v)
    | _ => none)

/-- The pipeline state after `n` successful frames from `initRenderer`:
every frame recorded on slot 0, whose retirement lists hold the handles
`0, …, n-1`; `frame_index`, `fence_value` and `frames_recorded` still 0. -/
def stateAfter (n : Nat) : GameRenderer :=
  ⟨[some ⟨0, List.range n, List.range n, 0⟩, some initFrame, some initFrame], 0⟩

/-- The calls frame number `k` issues (fresh handles `k`). -/
def frameTrace (k : Nat) : List Event :=
  [Event.acquireTexture, Event.beginEncoding 0, Event.transitionTextures,
   Event.createTextureView k, Event.beginRenderPass, Event.endRenderPass,
   Event.transitionTextures, Event.endEncoding k, Event.submit 0 [k] 0,
   Event.present]

/-- The concatenated trace of the first `n` frames. -/
def traceAfter : Nat → List Event
  | 0 => []
  | n + 1 => traceAfter n ++ frameTrace n

/-- The teardown trace `GameRenderer.exit` produces on every state reachable
by `n` frames: final empty submission on the current slot paired with its
fence at value 0; that slot's fence wait and clear (command buffers reset,
the `n` retired views destroyed); encoder and fence destruction for each of
the three slots; then surface unconfigure, device-and-queue release, surface
destruction, adapter release. -/
def exitTrace (n : Nat) : List Event :=
  Event.submit 0 [] 0 :: Event.fenceWait 0 ::
    Event.resetCmdBufs (List.range n) ::
    (List.range n).map Event.destroyTextureView ++
    [Event.destroyCommandEncoder, Event.destroyFence,
     Event.destroyCommandEncoder, Event.destroyFence,
     Event.destroyCommandEncoder, Event.destroyFence,
     Event.unconfigureSurface, Event.deviceExit,
     Event.destroySurface, Event.releaseAdapter]

/-! ## Supporting lemmas -/

lemma render_loop_stateAfter (i : Nat) :
    render_loop (stateAfter i) true i i = some (stateAfter (i + 1), frameTrace i) := by
  simp [render_loop, stateAfter, frameTrace, List.range_succ]

lemma renderN_eq (n : Nat) : renderN n = some (stateAfter n, traceAfter n) := by
  induction n with
  | zero => rfl
  | succ n ih => simp [renderN, ih, render_loop_stateAfter, traceAfter]

lemma exit_stateAfter (n : Nat) :
    GameRenderer.exit (stateAfter n) = some (exitTrace n) := by
  have hr : List.range MAX_FRAMES_IN_FLIGHT = [0, 1, 2] := rfl
  simp [GameRenderer.exit, stateAfter, RenderFrame.wait_and_clear,
    RenderFrame.destroy, exitTrace, hr, initFrame]

lemma presentationLoop_run (flags : Nat → Bool) :
    ∀ k i0 fuel, k < fuel → (∀ j, j < k → flags (i0 + j) = false) →
      flags (i0 + k) = true →
      presentationLoop flags i0 (stateAfter i0) fuel
        = List.replicate k LoopAction.renderFrame ++ [LoopAction.shutdownExit] := by
  intro k
  induction k with
  | zero =>
    intro i0 fuel hk hfirst hflag
    obtain ⟨fuel, rfl⟩ : ∃ m, fuel = m + 1 := ⟨fuel - 1, by omega⟩
    simp at hflag
    simp [presentationLoop, hflag]
  | succ k ih =>
    intro i0 fuel hk hfirst hflag
    obtain ⟨fuel, rfl⟩ : ∃ m, fuel = m + 1 := ⟨fuel - 1, by omega⟩
    have h0 : flags i0 = false := by simpa using hfirst 0 (Nat.succ_pos k)
    have hrec := ih (i0 + 1) fuel (by omega)
      (fun j hj => by
        have := hfirst (j + 1) (by omega)
        simpa [Nat.add_assoc, Nat.add_comm 1 j] using this)
      (by simpa [Nat.add_assoc, Nat.add_comm 1 k] using hflag)
    simp [presentationLoop, h0, render_loop_stateAfter, hrec,
      List.replicate_succ]

lemma GlobalId.allocate_eq_of_lt {c : Nat} (h : c < USIZE_MAX) :
    GlobalId.allocate c = (some c, c + 1) := by
  simp [GlobalId.allocate, checkedAdd, Nat.succ_le_of_lt h]

lemma GlobalId.allocate_eq_of_ge {c : Nat} (h : USIZE_MAX ≤ c) :
    GlobalId.allocate c = (none, c) := by
  have : ¬ c + 1 ≤ USIZE_MAX := by omega
  simp [GlobalId.allocate, checkedAdd, this]

lemma GlobalId.allocate_none_iff {c : Nat} :
    (GlobalId.allocate c).1 = none ↔ USIZE_MAX ≤ c := by
  rcases lt_or_ge c USIZE_MAX with h | h
  · simp [GlobalId.allocate_eq_of_lt h, Nat.not_le.mpr h]
  · simp [GlobalId.allocate_eq_of_ge h, h]

lemma GlobalId.allocRun_exhausted {c : Nat} (h : USIZE_MAX ≤ c) :
    ∀ n, GlobalId.allocRun c n = List.replicate n none := by
  intro n
  induction n with
  | zero => simp [GlobalId.allocRun]
  | succ n ih =>
    simp [GlobalId.allocRun, GlobalId.allocate_eq_of_ge h, ih,
      List.replicate_succ]

/-- Closed form of the successful ids in a run: the consecutive values from
the starting counter, cut off at exhaustion. -/
lemma GlobalId.allocRun_filterMap (c n : Nat) :
    (GlobalId.allocRun c n).filterMap id
      = List.range' c (min n (USIZE_MAX - c)) := by
  induction n generalizing c with
  | zero => simp [GlobalId.allocRun]
  | succ n ih =>
    rcases lt_or_ge c USIZE_MAX with h | h
    · have hmin : min (n + 1) (USIZE_MAX - c) = min n (USIZE_MAX - (c + 1)) + 1 := by
        omega
      simp [GlobalId.allocRun, GlobalId.allocate_eq_of_lt h, ih, hmin,
        List.range'_succ]
    · have hmin : min (n + 1) (USIZE_MAX - c) = 0 := by omega
      simp [GlobalId.allocRun, GlobalId.allocate_eq_of_ge h, hmin,
        GlobalId.allocRun_exhausted h, List.filterMap_replicate]

lemma ThreadLocalId.allocate_eq_global (c : Nat) :
    ThreadLocalId.allocate c = GlobalId.allocate c := rfl

lemma ThreadLocalId.allocRun_eq_global (c n : Nat) :
    ThreadLocalId.allocRun c n = GlobalId.allocRun c n := by
  induction n generalizing c with
  | zero => rfl
  | succ n ih => simp [ThreadLocalId.allocRun, GlobalId.allocRun, ih,
      ThreadLocalId.allocate_eq_global]

/-- Inversion: a successful `render_loop` call found a slot at the current
index. -/
lemma render_loop_frame_of_some {g g2 : GameRenderer} {ok : Bool}
    {v b : Handle} {ev : List Event}
    (h : render_loop g ok v b = some (g2, ev)) :
    ∃ frame, g.frames_in_flight.get? g.frame_index = some (some frame) := by
  unfold render_loop at h
  cases hg : g.frames_in_flight.get? g.frame_index with
  | none => rw [hg] at h; simp at h
  | some o =>
    cases o with
    | none => rw [hg] at h; simp at h
    | some frame => exact ⟨frame, rfl⟩

/-- Inversion: what a successful `render_loop` call did, given its slot. -/
lemma render_loop_some {g g2 : GameRenderer} {ok : Bool} {v b : Handle}
    {ev : List Event} {frame : RenderFrame}
    (h : render_loop g ok v b = some (g2, ev))
    (hf : g.frames_in_flight.get? g.frame_index = some (some frame)) :
    ok = true ∧
    g2 = { g with frames_in_flight :=
            (g.frames_in_flight.set g.frame_index
              (some ⟨frame.fence_value, frame.used_views ++ [v],
                     frame.used_cmd_bufs ++ [b], frame.frames_recorded⟩)) } ∧
    ev = [Event.acquireTexture, Event.beginEncoding g.frame_index,
          Event.transitionTextures, Event.createTextureView v,
          Event.beginRenderPass, Event.endRenderPass, Event.transitionTextures,
          Event.endEncoding b,
          Event.submit g.frame_index [b] frame.fence_value,
          Event.present] := by
  unfold render_loop at h
  rw [hf] at h
  cases ok with
  | false => simp at h
  | true =>
    simp at h
    exact ⟨rfl, h.1.symm, h.2.symm⟩

lemma fenceWaitCount_append (l1 l2 : List Event) :
    fenceWaitCount (l1 ++ l2) = fenceWaitCount l1 + fenceWaitCount l2 := by
  simp [fenceWaitCount, List.filter_append]

lemma fenceWaitCount_traceAfter (n : Nat) :
    fenceWaitCount (traceAfter n) = 0 := by
  induction n with
  | zero => rfl
  | succ n ih => rw [traceAfter, fenceWaitCount_append, ih]; rfl

lemma submitPairs_append (l1 l2 : List Event) :
    submitPairs (l1 ++ l2) = submitPairs l1 ++ submitPairs l2 := by
  simp [submitPairs]

lemma submitPairs_traceAfter (n : Nat) :
    submitPairs (traceAfter n) = List.replicate n (0, 0) := by
  induction n with
  | zero => rfl
  | succ n ih =>
    rw [traceAfter, submitPairs_append, ih, List.replicate_succ']
    rfl

/-! ## Claims -/

/-- Claim C5: when `RenderFrame::wait_and_clear` returns it has first issued
the blocking fence wait for the slot's `fence_value` (the head of its call
trace, before any release), then released every command buffer in
`used_cmd_bufs` (via `reset_all`) and every view in `used_views`; afterwards
both retirement lists are empty and `frames_recorded` is 0. -/
theorem C5_wait_and_clear_spec (f : RenderFrame) :
    (f.wait_and_clear).2
      = Event.fenceWait f.fence_value :: Event.resetCmdBufs f.used_cmd_bufs ::
          f.used_views.map Event.destroyTextureView ∧
    (f.wait_and_clear).2.head? = some (Event.fenceWait f.fence_value) ∧
    (∀ v ∈ f.used_views, Event.destroyTextureView v ∈ (f.wait_and_clear).2) ∧
    (f.wait_and_clear).1.used_views = [] ∧
    (f.wait_and_clear).1.used_cmd_bufs = [] ∧
    (f.wait_and_clear).1.frames_recorded = 0 := by
  refine ⟨rfl, rfl, ?_, rfl, rfl, rfl⟩
  intro v hv
  exact List.mem_cons_of_mem _ (List.mem_cons_of_mem _ (List.mem_map_of_mem _ hv))

/-- Claim C5 witness: `wait_and_clear` on a concrete slot holding one view
and one command buffer. -/
theorem C5_witness :
    (RenderFrame.wait_and_clear ⟨5, [7], [8], 2⟩).2
      = [Event.fenceWait 5, Event.resetCmdBufs [8], Event.destroyTextureView 7] ∧
    (RenderFrame.wait_and_clear ⟨5, [7], [8], 2⟩).1.used_views = [] ∧
    (RenderFrame.wait_and_clear ⟨5, [7], [8], 2⟩).1.used_cmd_bufs = [] ∧
    (RenderFrame.wait_and_clear ⟨5, [7], [8], 2⟩).1.frames_recorded = 0 :=
  ⟨(C5_wait_and_clear_spec ⟨5, [7], [8], 2⟩).1,
   (C5_wait_and_clear_spec ⟨5, [7], [8], 2⟩).2.2.2.1,
   (C5_wait_and_clear_spec ⟨5, [7], [8], 2⟩).2.2.2.2.1,
   (C5_wait_and_clear_spec ⟨5, [7], [8], 2⟩).2.2.2.2.2⟩

/-- Claim C8: both allocators return `none` exactly when `checked_add 1` on
the counter would overflow; a failed call leaves the counter unchanged, so
once one call has returned `none` every later call on the same counter does
too (the run is all `none`); and the ids a run hands out are pairwise
distinct — no wrap, no reuse. -/
theorem C8_exhaustion_permanent (c n : Nat) :
    ((GlobalId.allocate c).1 = none ↔ checkedAdd c 1 = none) ∧
    ((GlobalId.allocate c).1 = none →
      GlobalId.allocRun c n = List.replicate n none) ∧
    ((GlobalId.allocRun c n).filterMap id).Nodup ∧
    ((ThreadLocalId.allocate c).1 = none ↔ checkedAdd c 1 = none) ∧
    ((ThreadLocalId.allocate c).1 = none →
      ThreadLocalId.allocRun c n = List.replicate n none) ∧
    ((ThreadLocalId.allocRun c n).filterMap id).Nodup := by
  have hiff : (GlobalId.allocate c).1 = none ↔ checkedAdd c 1 = none := by
    rw [GlobalId.allocate_none_iff]
    unfold checkedAdd
    rcases lt_or_ge c USIZE_MAX with h | h
    · simp [Nat.succ_le_of_lt h]
      omega
    · have : ¬ c + 1 ≤ USIZE_MAX := by omega
      simp [this, h]
  have hperm : (GlobalId.allocate c).1 = none →
      GlobalId.allocRun c n = List.replicate n none := fun h =>
    GlobalId.allocRun_exhausted (GlobalId.allocate_none_iff.mp h) n
  have hnodup : ((GlobalId.allocRun c n).filterMap id).Nodup := by
    rw [GlobalId.allocRun_filterMap]
    exact List.nodup_range' _ _
  refine ⟨hiff, hperm, hnodup, ?_, ?_, ?_⟩
  · rwa [ThreadLocalId.allocate_eq_global]
  · rwa [ThreadLocalId.allocate_eq_global, ThreadLocalId.allocRun_eq_global]
  · rwa [ThreadLocalId.allocRun_eq_global]

/-- Claim C8 witness: at the exhausted counter `USIZE_MAX`, both allocators
return `none` now and on both following calls. -/
theorem C8_witness :
    GlobalId.allocRun USIZE_MAX 2 = List.replicate 2 none ∧
    ThreadLocalId.allocRun USIZE_MAX 2 = List.replicate 2 none :=
  ⟨(C8_exhaustion_permanent USIZE_MAX 2).2.1 (by decide),
   (C8_exhaustion_permanent USIZE_MAX 2).2.2.2.2.1 (by decide)⟩

/-- Claim C9: when the instance and surface steps succeed but zero adapters
are found, `GameRenderer::init` returns the terminal no-adapter error, and
its call trace shows nothing past adapter enumeration: the device was never
opened, the surface never configured and no frame slot (encoder or fence)
ever created. -/
theorem C9_no_adapter_abort (env : InitEnv) (h1 : env.instanceOk = true)
    (h2 : env.surfaceOk = true) (h0 : env.adapterCount = 0) :
    (GameRenderer.init env).2 = Except.error InitError.noAdaptersFound ∧
    (GameRenderer.init env).1
      = [InitEvent.instanceInit, InitEvent.createSurface,
         InitEvent.enumerateAdapters 0] ∧
    InitEvent.openDevice ∉ (GameRenderer.init env).1 ∧
    InitEvent.configureSurface ∉ (GameRenderer.init env).1 ∧
    InitEvent.createCommandEncoder ∉ (GameRenderer.init env).1 ∧
    InitEvent.createFence ∉ (GameRenderer.init env).1 := by
  have : GameRenderer.init env
      = ([InitEvent.instanceInit, InitEvent.createSurface,
          InitEvent.enumerateAdapters 0],
         Except.error InitError.noAdaptersFound) := by
    simp [GameRenderer.init, h1, h2, h0]
  rw [this]
  refine ⟨rfl, rfl, ?_, ?_, ?_, ?_⟩ <;> decide

/-- Claim C9 witness: the zero-adapter environment with all other
collaborator calls succeeding. -/
theorem C9_witness :
    (GameRenderer.init ⟨true, true, 0, true, true, true⟩).2
      = Except.error InitError.noAdaptersFound ∧
    InitEvent.openDevice ∉ (GameRenderer.init ⟨true, true, 0, true, true, true⟩).1 ∧
    InitEvent.configureSurface ∉ (GameRenderer.init ⟨true, true, 0, true, true, true⟩).1 :=
  ⟨(C9_no_adapter_abort ⟨true, true, 0, true, true, true⟩ rfl rfl rfl).1,
   (C9_no_adapter_abort ⟨true, true, 0, true, true, true⟩ rfl rfl rfl).2.2.1,
   (C9_no_adapter_abort ⟨true, true, 0, true, true, true⟩ rfl rfl rfl).2.2.2.1⟩

/-- Claim C10: a successful allocation returns exactly the counter's prior
value and bumps the counter by one; an overflowing allocation returns
`none` and leaves the counter unchanged; so the successful ids of a run
from 0 are precisely `0, 1, 2, …` in order.  The same function governs the
per-thread counter of `ThreadLocalId::allocate`. -/
theorem C10_counter_semantics (c n : Nat) :
    (c < USIZE_MAX → GlobalId.allocate c = (some c, c + 1)) ∧
    (USIZE_MAX ≤ c → GlobalId.allocate c = (none, c)) ∧
    (n ≤ USIZE_MAX → (GlobalId.allocRun 0 n).filterMap id = List.range n) ∧
    (c < USIZE_MAX → ThreadLocalId.allocate c = (some c, c + 1)) ∧
    (USIZE_MAX ≤ c → ThreadLocalId.allocate c = (none, c)) ∧
    (n ≤ USIZE_MAX → (ThreadLocalId.allocRun 0 n).filterMap id = List.range n) := by
  have hrange : n ≤ USIZE_MAX →
      (GlobalId.allocRun 0 n).filterMap id = List.range n := by
    intro hn
    rw [GlobalId.allocRun_filterMap, List.range_eq_range']
    congr 1
    omega
  refine ⟨fun h => GlobalId.allocate_eq_of_lt h,
    fun h => GlobalId.allocate_eq_of_ge h, hrange, ?_, ?_, ?_⟩
  · intro h
    rw [ThreadLocalId.allocate_eq_global]
    exact GlobalId.allocate_eq_of_lt h
  · intro h
    rw [ThreadLocalId.allocate_eq_global]
    exact GlobalId.allocate_eq_of_ge h
  · intro hn
    rw [ThreadLocalId.allocRun_eq_global]
    exact hrange hn

/-- Claim C10 witness: allocation at counter 5 returns id 5 and moves the
counter to 6, and a three-call run from 0 hands out 0, 1, 2. -/
theorem C10_witness :
    GlobalId.allocate 5 = (some 5, 6) ∧
    (GlobalId.allocRun 0 3).filterMap id = List.range 3 ∧
    ThreadLocalId.allocate 5 = (some 5, 6) ∧
    (ThreadLocalId.allocRun 0 3).filterMap id = List.range 3 :=
  ⟨(C10_counter_semantics 5 3).1 (by decide),
   (C10_counter_semantics 5 3).2.2.1 (by decide),
   (C10_counter_semantics 5 3).2.2.2.1 (by decide),
   (C10_counter_semantics 5 3).2.2.2.2.2 (by decide)⟩

/-- Claim C1 counterexample: from a freshly initialized pipeline, the slot
usage sequence of 7 consecutive `render_loop` calls is `0,0,0,0,0,0,0` —
not the claimed `0,1,2,0,1,2,0` — and after the first call `frame_index`
is still 0, not `(0 + 1) mod 3 = 1`: `render_loop` never writes
`frame_index`. -/
theorem C1_counterexample :
    (renderN 7).map (fun p => usedSlots p.2) = some [0, 0, 0, 0, 0, 0, 0] ∧
    (renderN 1).map (fun p => p.1.frame_index) = some 0 ∧
    ([0, 0, 0, 0, 0, 0, 0] : List Nat) ≠ [0, 1, 2, 0, 1, 2, 0] ∧
    (0 : Nat) ≠ (0 + 1) % MAX_FRAMES_IN_FLIGHT := by
  refine ⟨rfl, rfl, by decide, by decide⟩

/-- Claim C1 (amended): every call to `render_loop` on an initialized
pipeline uses the slot selected by the current `frameIndex` and leaves
`frameIndex` unchanged; consequently, starting from a freshly initialized
pipeline, 7 consecutive `renderFrame()` calls all use slot 0. -/
theorem C1_amended_slot_usage (g g2 : GameRenderer) (ok : Bool)
    (v b : Handle) (ev : List Event)
    (h : render_loop g ok v b = some (g2, ev)) :
    usedSlots ev = [g.frame_index] ∧
    g2.frame_index = g.frame_index ∧
    (renderN 7).map (fun p => usedSlots p.2) = some (List.replicate 7 0) := by
  obtain ⟨frame, hf⟩ := render_loop_frame_of_some h
  obtain ⟨-, hg2, hev⟩ := render_loop_some h hf
  subst hg2 hev
  exact ⟨rfl, rfl, rfl⟩

/-- Claim C1 witness: the first frame on a fresh pipeline records on slot 0
and leaves the cursor at 0. -/
theorem C1_witness :
    usedSlots (frameTrace 0) = [initRenderer.frame_index] ∧
    (stateAfter 1).frame_index = initRenderer.frame_index ∧
    (renderN 7).map (fun p => usedSlots p.2) = some (List.replicate 7 0) :=
  C1_amended_slot_usage initRenderer (stateAfter 1) true 0 0 (frameTrace 0)
    (render_loop_stateAfter 0)

/-- Claim C2 counterexample: after `N = 3` consecutive `render_loop` calls
from a fresh pipeline, no fence wait has been issued anywhere in the trace
(the first slot was reclaimed zero times, not at least once), even though
slot 0 was reused for recording in calls 2 and 3. -/
theorem C2_counterexample :
    (renderN 3).map (fun p => fenceWaitCount p.2) = some 0 ∧
    (renderN 3).map (fun p => usedSlots p.2) = some [0, 0, 0] ∧
    ¬ (1 ≤ (0 : Nat)) := by
  refine ⟨rfl, rfl, by decide⟩

/-- Claim C2 (amended): `render_loop` never reclaims a slot — a call issues
no fence wait at all, and no run of frames contains one — so a slot is
reused for recording without its fence being confirmed; the only
reclamation (`wait_and_clear`, one fence wait) happens during shutdown. -/
theorem C2_amended_no_reclaim (g g2 : GameRenderer) (ok : Bool)
    (v b : Handle) (ev : List Event) (n : Nat)
    (h : render_loop g ok v b = some (g2, ev)) :
    fenceWaitCount ev = 0 ∧
    (renderN n).map (fun p => fenceWaitCount p.2) = some 0 ∧
    fenceWaitCount (exitTrace n) = 1 := by
  obtain ⟨frame, hf⟩ := render_loop_frame_of_some h
  obtain ⟨-, -, hev⟩ := render_loop_some h hf
  subst hev
  refine ⟨rfl, ?_, ?_⟩
  · rw [renderN_eq]
    simp [fenceWaitCount_traceAfter]
  · have : fenceWaitCount ((List.range n).map Event.destroyTextureView) = 0 := by
      simp [fenceWaitCount, List.filter_map]
    simp [exitTrace, fenceWaitCount, List.filter_append] at this ⊢

/-- Claim C2 witness: the first frame on a fresh pipeline performs no fence
wait, no three-frame run does, and teardown performs exactly one. -/
theorem C2_witness :
    fenceWaitCount (frameTrace 0) = 0 ∧
    (renderN 3).map (fun p => fenceWaitCount p.2) = some 0 ∧
    fenceWaitCount (exitTrace 3) = 1 :=
  C2_amended_no_reclaim initRenderer (stateAfter 1) true 0 0 (frameTrace 0) 3
    (render_loop_stateAfter 0)

/-- Claim C3: on every pipeline state reachable by `n` frames, `exit`
produces exactly the teardown trace `exitTrace n` — empty submission paired
with the current slot's fence, wait-and-clear of that slot, destruction of
all three slots, surface unconfigure, device+queue release, surface
destruction, adapter release, in that order — and every slot other than the
current one is already drained (empty retirement lists) when destroyed. -/
theorem C3_teardown_order (n : Nat) (g : GameRenderer) (tr : List Event)
    (h : renderN n = some (g, tr)) :
    GameRenderer.exit g = some (exitTrace n) ∧
    (∀ i f, g.frames_in_flight.get? i = some (some f) → i ≠ g.frame_index →
      f.used_views = [] ∧ f.used_cmd_bufs = []) := by
  rw [renderN_eq] at h
  simp only [Option.some_inj, Prod.mk.injEq] at h
  obtain ⟨hg, -⟩ := h
  subst hg
  refine ⟨exit_stateAfter n, ?_⟩
  intro i f hfi hne
  rcases i with _ | _ | _ | i
  · exact absurd rfl hne
  · obtain rfl : initFrame = f := by simpa [stateAfter] using hfi
    exact ⟨rfl, rfl⟩
  · obtain rfl : initFrame = f := by simpa [stateAfter] using hfi
    exact ⟨rfl, rfl⟩
  · simp [stateAfter] at hfi

/-- Claim C3 witness: teardown after two frames. -/
theorem C3_witness :
    GameRenderer.exit (stateAfter 2) = some (exitTrace 2) :=
  (C3_teardown_order 2 (stateAfter 2) (traceAfter 2) (renderN_eq 2)).1

/-- Claim C4 counterexample: the two submissions of the first two frames are
both on slot 0 and both carry fence value 0 — the per-slot submission
values `0, 0` are not strictly increasing — and after both calls the slot's
`fence_value` is still 0: `render_loop` never increments it. -/
theorem C4_counterexample :
    (renderN 2).map (fun p => submitPairs p.2) = some [(0, 0), (0, 0)] ∧
    (renderN 2).map (fun p => p.1.frames_in_flight.get? 0) =
      some (some (some ⟨0, [0, 1], [0, 1], 0⟩)) ∧
    ¬ ((0 : Nat) < 0) := by
  refine ⟨rfl, rfl, by decide⟩

/-- Claim C4 (amended): every `render_loop` submission is passed to the
queue paired with (the current slot's fence, that slot's `fence_value`),
but `fence_value` is not a counter: the call stores the slot back with
`fence_value` unchanged, so every submission in a run from a fresh pipeline
carries the initial value 0. -/
theorem C4_amended_fence_pairing (g g2 : GameRenderer) (ok : Bool)
    (v b : Handle) (ev : List Event) (frame : RenderFrame) (n : Nat)
    (h : render_loop g ok v b = some (g2, ev))
    (hf : g.frames_in_flight.get? g.frame_index = some (some frame)) :
    submitPairs ev = [(g.frame_index, frame.fence_value)] ∧
    g2.frames_in_flight = g.frames_in_flight.set g.frame_index
      (some ⟨frame.fence_value, frame.used_views ++ [v],
             frame.used_cmd_bufs ++ [b], frame.frames_recorded⟩) ∧
    (renderN n).map (fun p => submitPairs p.2)
      = some (List.replicate n (0, 0)) := by
  obtain ⟨-, hg2, hev⟩ := render_loop_some h hf
  subst hg2 hev
  refine ⟨rfl, rfl, ?_⟩
  rw [renderN_eq]
  simp [submitPairs_traceAfter]

/-- Claim C4 witness: the first frame's submission is paired with slot 0's
fence at its stored value 0, and a two-frame run submits (0,0) twice. -/
theorem C4_witness :
    submitPairs (frameTrace 0)
      = [(initRenderer.frame_index, initFrame.fence_value)] ∧
    (renderN 2).map (fun p => submitPairs p.2)
      = some (List.replicate 2 (0, 0)) :=
  ⟨(C4_amended_fence_pairing initRenderer (stateAfter 1) true 0 0
      (frameTrace 0) initFrame 2 (render_loop_stateAfter 0) rfl).1,
   (C4_amended_fence_pairing initRenderer (stateAfter 1) true 0 0
      (frameTrace 0) initFrame 2 (render_loop_stateAfter 0) rfl).2.2⟩

/-- Claim C6 counterexample: after one successful `render_loop` call from a
fresh pipeline, slot 0 holds exactly one retired view and one retired
command buffer, but its `frames_recorded` is 0, not the claimed 1: the call
never increments the counter. -/
theorem C6_counterexample :
    (renderN 1).map (fun p => p.1.frames_in_flight.get? 0) =
      some (some (some ⟨0, [0], [0], 0⟩)) ∧
    (0 : Nat) ≠ 0 + 1 := by
  refine ⟨rfl, by decide⟩

/-- Claim C6 (amended): every successful `render_loop` call appends exactly
one transient view to the slot's `used_views` and exactly one submitted
command buffer to its `used_cmd_bufs`, and leaves `frames_recorded`
unchanged (the source never increments it). -/
theorem C6_amended_append_no_count (g g2 : GameRenderer) (ok : Bool)
    (v b : Handle) (ev : List Event) (frame : RenderFrame)
    (h : render_loop g ok v b = some (g2, ev))
    (hf : g.frames_in_flight.get? g.frame_index = some (some frame)) :
    g2.frames_in_flight = g.frames_in_flight.set g.frame_index
      (some ⟨frame.fence_value, frame.used_views ++ [v],
             frame.used_cmd_bufs ++ [b], frame.frames_recorded⟩) ∧
    (frame.used_views ++ [v]).length = frame.used_views.length + 1 ∧
    (frame.used_cmd_bufs ++ [b]).length = frame.used_cmd_bufs.length + 1 := by
  obtain ⟨-, hg2, -⟩ := render_loop_some h hf
  subst hg2
  exact ⟨rfl, by simp, by simp⟩

/-- Claim C6 witness: the first frame on a fresh pipeline grows slot 0's
retirement lists from 0 to 1 entries while `frames_recorded` stays put. -/
theorem C6_witness :
    (stateAfter 1).frames_in_flight
      = initRenderer.frames_in_flight.set initRenderer.frame_index
          (some ⟨initFrame.fence_value, initFrame.used_views ++ [0],
                 initFrame.used_cmd_bufs ++ [0], initFrame.frames_recorded⟩) ∧
    (initFrame.used_views ++ [0]).length = initFrame.used_views.length + 1 ∧
    (initFrame.used_cmd_bufs ++ [0]).length
      = initFrame.used_cmd_bufs.length + 1 :=
  C6_amended_append_no_count initRenderer (stateAfter 1) true 0 0
    (frameTrace 0) initFrame (render_loop_stateAfter 0) rfl

/-- Claim C7: if the presentation loop observes the shutdown flag clear for
its first `k` iterations and set at iteration `k`, it renders exactly `k`
full frames and then performs the pipeline exit once, as its final action,
never rendering afterwards; and any iteration that observed the flag clear
performs its frame in full (the flag is only read at the top of an
iteration, so signaling mid-frame aborts nothing). -/
theorem C7_shutdown_once (flags : Nat → Bool) (k fuel : Nat)
    (hk : k < fuel) (hfirst : ∀ j, j < k → flags j = false)
    (hflag : flags k = true) :
    presentationLoop flags 0 initRenderer fuel
      = List.replicate k LoopAction.renderFrame ++ [LoopAction.shutdownExit] ∧
    (presentationLoop flags 0 initRenderer fuel).count
      LoopAction.shutdownExit = 1 ∧
    (presentationLoop flags 0 initRenderer fuel).getLast?
      = some LoopAction.shutdownExit ∧
    (∀ fl : Nat → Bool, ∀ i g fuel2, fl i = false →
      (presentationLoop fl i g (fuel2 + 1)).head?
        = some LoopAction.renderFrame) := by
  have hrun : presentationLoop flags 0 initRenderer fuel
      = List.replicate k LoopAction.renderFrame ++ [LoopAction.shutdownExit] := by
    have := presentationLoop_run flags k 0 fuel hk
      (fun j hj => by simpa using hfirst j hj) (by simpa using hflag)
    simpa using this
  refine ⟨hrun, ?_, ?_, ?_⟩
  · rw [hrun, List.count_append]
    simp [List.count_eq_zero, List.mem_replicate]
  · rw [hrun]
    simp
  · intro fl i g fuel2 hfl
    cases hrl : render_loop g true i i with
    | none => simp [presentationLoop, hfl, hrl]
    | some p => simp [presentationLoop, hfl, hrl]

/-- Claim C7 witness: with the flag first observed set at iteration 2, the
loop renders two frames, exits once, and stops. -/
theorem C7_witness :
    presentationLoop (fun i => decide (2 ≤ i)) 0 initRenderer 9
      = List.replicate 2 LoopAction.renderFrame ++ [LoopAction.shutdownExit] :=
  (C7_shutdown_once (fun i => decide (2 ≤ i)) 2 9 (by decide) (by decide)
    (by decide)).1

end Midnight2
